import Mathlib

/-!
Shallow embedding of the simulator-diagnostics benchmark tool
(src/unnamed/part_004 benchmark.ts, part_005 simctl.ts + styles.ts,
part_006 commands.ts, part_007 reporting.ts).

External effects (the `xcrun simctl` calls, the host load average, the
wall clock) are modelled by explicit environment records supplying each
invocation's exit code, wall-clock duration and sampled load; thrown JS
errors are modelled with `Except SimError`.  Wall-clock durations are
exact rationals; only sleeps and external commands advance the clock.
-/

/-- The three-way error taxonomy of simctl.ts: `SoftSimulatorError`,
`HardSimulatorError`, and any other thrown value (the "unexpected" class,
not a `SimulatorError` subclass). -/
inductive SimError where
  | soft (msg : String)
  | hard (msg : String)
  | other (msg : String)
deriving DecidableEq, Repr

/-- One external `xcrun simctl` invocation that touches a simulator
instance; traces of these record what the orchestration executed. -/
inductive Op where
  | erase (deviceId : String)
  | boot (deviceId : String)
  | spawn (cmd : String)
  | launch (bundleId : String)
  | shutdown (deviceId : String)
deriving DecidableEq, Repr

/-- Exit code and wall-clock duration of one external command invocation. -/
structure CmdResult where
  code : Int
  durMs : ℚ
deriving DecidableEq, Repr

/-- simctl.ts `Runtime` record (fields of the parsed runtimes JSON). -/
structure Runtime where
  buildversion : String
  availability : String
  name : String
  identifier : String
  version : String
  isAvailable : Bool
deriving DecidableEq, Repr

/-- simctl.ts `Device` record (fields of the parsed devices JSON). -/
structure Device where
  name : String
  udid : String
  state : String
  isAvailable : Bool
deriving DecidableEq, Repr

/-- simctl.ts `SimCtlOutput`: device lists keyed by runtime, in
`Object.entries` (insertion) order. -/
structure SimCtlOutput where
  devices : List (String × List Device)
deriving DecidableEq, Repr

/-- JS `String.prototype.includes`: substring containment. -/
def strContains (s pat : String) : Bool :=
  decide (pat.toList <:+: s.toList)

/-- JS `String.prototype.startsWith`. -/
def strStartsWith (s pat : String) : Bool :=
  decide (pat.toList <+: s.toList)

/-- The runtime-matching predicate of `getDeviceId` (simctl.ts): exact
version match, or the runtime name contains the requested version, or a
two-character dot-free spec that the runtime version starts with. -/
def runtimeMatches (iosVersion : String) (r : Runtime) : Bool :=
  r.version == iosVersion ||
  strContains r.name iosVersion ||
  (iosVersion.length == 2 && !(strContains iosVersion ".") &&
    strStartsWith r.version iosVersion)

/-- The inner device loop of `getDeviceId`: first device in the list whose
name equals `deviceName` and which is available. -/
def findAvailableDevice (deviceName : String) (devs : List Device) : Option Device :=
  devs.find? (fun d => d.name == deviceName && d.isAvailable)

/-- Common shape of the two `getDeviceId` device-group loops: scan groups
in catalog order, and inside each group whose key satisfies `keyMatch`
look for an available device named `deviceName`; return the first hit. -/
def searchGroups (keyMatch : String → Bool) (deviceName : String) :
    List (String × List Device) → Option Device
  | [] => none
  | (key, devs) :: rest =>
    if keyMatch key then
      match findAvailableDevice deviceName devs with
      | some d => some d
      | none => searchGroups keyMatch deviceName rest
    else searchGroups keyMatch deviceName rest

/-- First device-group loop of `getDeviceId`: group key must equal the
matched runtime's identifier or its name exactly. -/
def searchExactGroups (rt : Runtime) (deviceName : String)
    (gs : List (String × List Device)) : Option Device :=
  searchGroups (fun key => key == rt.identifier || key == rt.name) deviceName gs

/-- Second (fallback) device-group loop of `getDeviceId`: group key must
contain the runtime's version or its name as a substring. -/
def searchLooseGroups (rt : Runtime) (deviceName : String)
    (gs : List (String × List Device)) : Option Device :=
  searchGroups (fun key => strContains key rt.version || strContains key rt.name)
    deviceName gs

/-- Device phase of `getDeviceId`: exact-key pass, then the loose fallback
pass, else the `SoftSimulatorError` for a missing device. -/
def deviceLookup (rt : Runtime) (deviceName : String)
    (gs : List (String × List Device)) : Except SimError String :=
  match searchExactGroups rt deviceName gs with
  | some d => .ok d.udid
  | none =>
    match searchLooseGroups rt deviceName gs with
    | some d => .ok d.udid
    | none => .error (.soft "no available device")

/-- The process-wide simctl metadata cache (the two module-level `let`
variables of simctl.ts). -/
structure SimctlCache where
  cachedDevices : Option SimCtlOutput
  cachedRuntimes : Option (List Runtime)
deriving DecidableEq, Repr

/-- What the two `xcrun simctl list` endpoints would return if invoked:
the parsed runtimes JSON and the parsed devices JSON. -/
structure SimctlWorld where
  runtimesJson : List Runtime
  devicesJson : SimCtlOutput

/-- `getAllRuntimes` (simctl.ts): on a cache miss fetch the runtime
catalog, keep only runtimes whose name marks them as iOS, and cache that
filtered list; on a hit return the cache.  The final component counts
external catalog-fetch calls made (0 or 1). -/
def getAllRuntimes (w : SimctlWorld) (st : SimctlCache) :
    List Runtime × SimctlCache × ℕ :=
  match st.cachedRuntimes with
  | some rs => (rs, st, 0)
  | none =>
    let iosRuntimes := w.runtimesJson.filter (fun r => strContains r.name "iOS")
    (iosRuntimes, { st with cachedRuntimes := some iosRuntimes }, 1)

/-- `getAllDevices` (simctl.ts): fetch and cache the device catalog on a
miss, return the cache on a hit; counts external fetches. -/
def getAllDevices (w : SimctlWorld) (st : SimctlCache) :
    SimCtlOutput × SimctlCache × ℕ :=
  match st.cachedDevices with
  | some out => (out, st, 0)
  | none => (w.devicesJson, { st with cachedDevices := some w.devicesJson }, 1)

/-- `getDeviceId` (simctl.ts): select the first runtime matching
`iosVersion`, then resolve the device through the two group passes.
Returns the result, the updated cache, and the pair
(runtime-catalog fetches, device-catalog fetches) issued by this call. -/
def getDeviceId (w : SimctlWorld) (iosVersion deviceName : String)
    (st : SimctlCache) : Except SimError String × SimctlCache × ℕ × ℕ :=
  let (runtimes, st1, cr) := getAllRuntimes w st
  match runtimes.find? (runtimeMatches iosVersion) with
  | none => (.error (.soft "no matching runtime"), st1, cr, 0)
  | some rt =>
    let (out, st2, cd) := getAllDevices w st1
    (deviceLookup rt deviceName out.devices, st2, cr, cd)

/-- JS `Math.round(ms / 1000)` for a non-negative millisecond count
(rounds half up). -/
def roundMsToSec (ms : ℕ) : ℕ := (ms + 500) / 1000

/-- The polling loop of `waitForSystemIdle` (simctl.ts).  `t` is the
elapsed time in ms since the loop's start (polls happen at 3000 ms steps:
only the 3-second sleeps advance the clock), `k` counts polls so the
environment `load` can supply each sampled one-minute load average.
Declares idle when the sampled load is below the threshold and the
rounded elapsed seconds exceed the 10-second grace period; otherwise
sleeps 3000 ms and repeats; exits with `false` once `t` reaches the
timeout.  The structural `fuel` strictly exceeds the possible number of
iterations whenever `timeoutMs ≤ 3000 * fuel + t`, so the fuel-exhausted
base case coincides with the loop's own timeout exit. -/
def idleLoop (idleThreshold : ℚ) (timeoutMs : ℕ) (load : ℕ → ℚ) :
    ℕ → ℕ → ℕ → ℕ × Bool
  | 0, _, t => (t, false)
  | fuel + 1, k, t =>
    if t < timeoutMs then
      if load k < idleThreshold && decide (roundMsToSec t > 10) then
        (t, true)
      else
        idleLoop idleThreshold timeoutMs load fuel (k + 1) (t + 3000)
    else (t, false)

/-- `waitForSystemIdle` (simctl.ts), keeping both the elapsed time and the
`isIdle` flag at exit.  `idleTimeout` is in seconds. -/
def waitForSystemIdleRun (idleThreshold : ℚ) (idleTimeout : ℕ)
    (load : ℕ → ℚ) : ℕ × Bool :=
  idleLoop idleThreshold (idleTimeout * 1000) load (idleTimeout * 1000 / 3000 + 1) 0 0

/-- `waitForSystemIdle`'s return value: the elapsed wait in milliseconds,
returned whether idle was reached or the timeout expired. -/
def waitForSystemIdle (idleThreshold : ℚ) (idleTimeout : ℕ)
    (load : ℕ → ℚ) : ℕ :=
  (waitForSystemIdleRun idleThreshold idleTimeout load).1

/-- `eraseDevice` (simctl.ts): non-zero exit status raises a
`HardSimulatorError`. -/
def eraseDevice (code : Int) (deviceId : String) : Except SimError Unit × List Op :=
  (if code == 0 then .ok () else .error (.hard "erase failed"), [Op.erase deviceId])

/-- `executeCommand` (simctl.ts): spawn the command inside the booted
simulator; a non-zero exit status raises a `HardSimulatorError` when
`critical` and a `SoftSimulatorError` otherwise. -/
def executeCommand (res : CmdResult) (command : String) (critical : Bool) :
    Except SimError Unit × List Op :=
  (if res.code == 0 then .ok ()
   else if critical then .error (.hard "critical command failed")
   else .error (.soft "command failed"),
   [Op.spawn command])

/-- `shutdownDevice` (simctl.ts): non-zero exit status raises a
`HardSimulatorError`. -/
def shutdownDevice (code : Int) (deviceId : String) : Except SimError Unit × List Op :=
  (if code == 0 then .ok () else .error (.hard "shutdown failed"), [Op.shutdown deviceId])

/-- Environment of one `measureBootTime` call: outcome of the
`bootstatus` command, of the i-th post-boot spawn, and of the Settings
launch. -/
structure BootEnv where
  bootRes : CmdResult
  spawnRes : ℕ → CmdResult
  launchRes : CmdResult

/-- The post-boot command loop of `measureBootTime`: every command is
executed as critical, in order, stopping at the first failure.  On
success, returns the total wall-clock time the spawns consumed (they run
inside `measureBootTime`'s timed window). -/
def runSpawnCommands (spawnRes : ℕ → CmdResult) :
    List String → ℕ → Except SimError ℚ × List Op
  | [], _ => (.ok 0, [])
  | c :: cs, i =>
    match executeCommand (spawnRes i) c true with
    | (.error e, tr) => (.error e, tr)
    | (.ok _, tr) =>
      match runSpawnCommands spawnRes cs (i + 1) with
      | (.ok q, tr') => (.ok ((spawnRes i).durMs + q), tr ++ tr')
      | (.error e, tr') => (.error e, tr ++ tr')

/-- `measureBootTime` (simctl.ts): the timer starts just before the boot
call and stops after the Settings launch succeeds, so the returned
duration is boot + post-boot spawns + launch.  Boot and launch failures
raise `HardSimulatorError`; a `null` command list behaves like `[]`. -/
def measureBootTime (be : BootEnv) (deviceId : String) (commands : List String) :
    Except SimError ℚ × List Op :=
  if be.bootRes.code == 0 then
    match runSpawnCommands be.spawnRes commands 0 with
    | (.ok spawnDur, tr) =>
      if be.launchRes.code == 0 then
        (.ok (be.bootRes.durMs + spawnDur + be.launchRes.durMs),
         Op.boot deviceId :: (tr ++ [Op.launch "com.apple.Preferences"]))
      else
        (.error (.hard "launch failed"),
         Op.boot deviceId :: (tr ++ [Op.launch "com.apple.Preferences"]))
    | (.error e, tr) => (.error e, Op.boot deviceId :: tr)
  else (.error (.hard "boot failed"), [Op.boot deviceId])

/-- Environment of one repetition of the benchmark loop: exit codes and
durations of its erase, boot, spawns, launch and shutdown, and the load
samples seen by its idle wait. -/
structure RepEnv where
  eraseCode : Int
  boot : BootEnv
  load : ℕ → ℚ
  shutdownCode : Int

/-- One `BenchmarkRequest`: the arguments `runBootBenchmark` receives for
one (version, device) combination.  A `null` spawn-command list is
modelled as `[]` (the source only checks non-emptiness). -/
structure BenchmarkRequest where
  iosVersion : String
  deviceName : String
  runCount : ℕ
  idleThreshold : ℚ
  spawnCommands : List String
  idleTimeout : ℕ

/-- benchmark.ts `BenchmarkResult` (the `timeToIdleMs` field is optional
in the source interface). -/
structure BenchmarkResult where
  iosVersion : String
  deviceName : String
  bootTimeMs : ℚ
  runs : ℕ
  timeToIdleMs : Option ℚ
deriving DecidableEq, Repr

/-- Environment of one `runBootBenchmark` call: the outcome of device
resolution, the per-repetition environments, and the exit code the
recovery `shutdownDevice("booted")` would report if attempted. -/
structure ComboEnv where
  resolveRes : Except SimError String
  reps : ℕ → RepEnv
  recoveryShutdownCode : Int

/-- The body of one repetition of `runBootBenchmark`'s loop (the
stabilization wait before repetitions after the first only sleeps and
logs the load; it runs no simulator operation and cannot fail, so it
leaves no trace here): erase, timed boot, idle wait, clean shutdown.
Returns the repetition's boot time and its boot + idle-wait sum. -/
def runOneRep (re : RepEnv) (req : BenchmarkRequest) (deviceId : String) :
    Except SimError (ℚ × ℚ) × List Op :=
  match eraseDevice re.eraseCode deviceId with
  | (.error e, tr) => (.error e, tr)
  | (.ok _, tr) =>
    match measureBootTime re.boot deviceId req.spawnCommands with
    | (.error e, tr') => (.error e, tr ++ tr')
    | (.ok bootTime, tr') =>
      let timeToIdle : ℚ := (waitForSystemIdle req.idleThreshold req.idleTimeout re.load : ℕ)
      match shutdownDevice re.shutdownCode deviceId with
      | (.error e, tr'') => (.error e, tr ++ tr' ++ tr'')
      | (.ok _, tr'') => (.ok (bootTime, bootTime + timeToIdle), tr ++ tr' ++ tr'')

/-- The repetition loop of `runBootBenchmark`, accumulating
`totalBootTimeMs` and `totalTimeToIdleMs`; the first error aborts the
loop (remaining repetitions are not attempted). -/
def runReps (ce : ComboEnv) (req : BenchmarkRequest) (deviceId : String) :
    ℕ → ℕ → ℚ → ℚ → Except SimError (ℚ × ℚ) × List Op
  | 0, _, totBoot, totIdle => (.ok (totBoot, totIdle), [])
  | n + 1, i, totBoot, totIdle =>
    match runOneRep (ce.reps i) req deviceId with
    | (.error e, tr) => (.error e, tr)
    | (.ok (b, ti), tr) =>
      match runReps ce req deviceId n (i + 1) (totBoot + b) (totIdle + ti) with
      | (res, tr') => (res, tr ++ tr')

/-- The `try` block of `runBootBenchmark` (benchmark.ts): resolve the
device, run `runCount` repetitions, and average the accumulated totals
into a `BenchmarkResult`. -/
def runBootBenchmarkBody (ce : ComboEnv) (req : BenchmarkRequest) :
    Except SimError BenchmarkResult × List Op :=
  match ce.resolveRes with
  | .error e => (.error e, [])
  | .ok deviceId =>
    match runReps ce req deviceId req.runCount 0 0 0 with
    | (.error e, tr) => (.error e, tr)
    | (.ok (totBoot, totIdle), tr) =>
      (.ok { iosVersion := req.iosVersion
             deviceName := req.deviceName
             bootTimeMs := totBoot / (req.runCount : ℚ)
             runs := req.runCount
             timeToIdleMs := some (totIdle / (req.runCount : ℚ)) }, tr)

/-- `runBootBenchmark` (benchmark.ts): the body wrapped in the
three-way `catch`.  A `SoftSimulatorError` is logged and yields `null`; a
`HardSimulatorError` is logged, triggers the best-effort
`shutdownDevice("booted")` recovery (whose own failure the nested
`try`/`catch` only logs — its result is discarded), and yields `null`;
anything else is re-thrown. -/
def runBootBenchmark (ce : ComboEnv) (req : BenchmarkRequest) :
    Except SimError (Option BenchmarkResult) × List Op :=
  match runBootBenchmarkBody ce req with
  | (.ok r, tr) => (.ok (some r), tr)
  | (.error (.soft _), tr) => (.ok none, tr)
  | (.error (.hard _), tr) =>
    (.ok none, tr ++ (shutdownDevice ce.recoveryShutdownCode "booted").2)
  | (.error (.other m), tr) => (.error (.other m), tr)

/-- The nested per-version/per-device loop inside `benchmarkBootCommand`'s
`try` block (commands.ts): each combination's non-null result is pushed;
a `null` result skips the combination; an error escaping
`runBootBenchmark` stops the loop before any later combination runs (the
command level records it).  Returns the collected results, the escaped
error if any, and the operation trace. -/
def benchLoop : List (ComboEnv × BenchmarkRequest) →
    List BenchmarkResult × Option SimError × List Op
  | [] => ([], none, [])
  | (ce, req) :: rest =>
    match runBootBenchmark ce req with
    | (.ok (some r), tr) =>
      match benchLoop rest with
      | (rs, err, tr') => (r :: rs, err, tr ++ tr')
    | (.ok none, tr) =>
      match benchLoop rest with
      | (rs, err, tr') => (rs, err, tr ++ tr')
    | (.error e, tr) => ([], some e, tr)

/-- JS `Number.prototype.toFixed(1)`: round to the integer number of
tenths nearest the value, ties toward the larger integer, and render it
with one decimal digit. -/
def toFixed1 (q : ℚ) : String :=
  let n : ℤ := Rat.floor (q * 10 + 1 / 2)
  let a : ℕ := n.natAbs
  (if n < 0 then "-" else "") ++ toString (a / 10) ++ "." ++ toString (a % 10)

/-- JS truthiness of `result.timeToIdleMs` (a possibly-undefined number):
`undefined` and `0` are falsy. -/
def jsTruthyNum (t : Option ℚ) : Bool :=
  match t with
  | none => false
  | some v => !(v == 0)

/-- The "Time to Idle (sec)" cell of `printResultTable` (reporting.ts):
`result.timeToIdleMs ? (result.timeToIdleMs / 1000).toFixed(1) : "N/A"`. -/
def timeToIdleCell (t : Option ℚ) : String :=
  if jsTruthyNum t then
    match t with
    | some v => toFixed1 (v / 1000)
    | none => "N/A"
  else "N/A"

/-- One row of `printResultTable` (reporting.ts): version, boot time in
seconds with one decimal, and the time-to-idle cell. -/
def resultRow (r : BenchmarkResult) : String × String × String :=
  (r.iosVersion, toFixed1 (r.bootTimeMs / 1000), timeToIdleCell r.timeToIdleMs)

theorem idleLoop_elapsed_lt (idleThreshold : ℚ) (timeoutMs : ℕ) (load : ℕ → ℚ) :
    ∀ fuel k t, t < timeoutMs + 3000 →
      (idleLoop idleThreshold timeoutMs load fuel k t).1 < timeoutMs + 3000 := by
  intro fuel
  induction fuel with
  | zero => intro k t ht; simpa [idleLoop] using ht
  | succ n ih =>
    intro k t ht
    by_cases h1 : t < timeoutMs
    · by_cases h2 : (load k < idleThreshold && decide (roundMsToSec t > 10)) = true
      · simpa [idleLoop, h1, h2] using h1.trans_le (by omega)
      · simpa [idleLoop, h1, h2] using ih (k + 1) (t + 3000) (by omega)
    · simpa [idleLoop, h1] using ht

theorem idleLoop_idle_elapsed_ge (idleThreshold : ℚ) (timeoutMs : ℕ) (load : ℕ → ℚ) :
    ∀ fuel k t, (idleLoop idleThreshold timeoutMs load fuel k t).2 = true →
      10500 ≤ (idleLoop idleThreshold timeoutMs load fuel k t).1 := by
  intro fuel
  induction fuel with
  | zero => intro k t ht; simp [idleLoop] at ht
  | succ n ih =>
    intro k t ht
    by_cases h1 : t < timeoutMs
    · by_cases h2 : (load k < idleThreshold && decide (roundMsToSec t > 10)) = true
      · have hsec : roundMsToSec t > 10 := by
          have := (Bool.and_eq_true _ _).mp h2
          exact of_decide_eq_true this.2
        have : 10500 ≤ t := by
          unfold roundMsToSec at hsec
          omega
        simpa [idleLoop, h1, h2] using this
      · simpa [idleLoop, h1, h2] using ih (k + 1) (t + 3000)
          (by simpa [idleLoop, h1, h2] using ht)
    · simp [idleLoop, h1] at ht

/-- Claim C6: for every threshold and timeout, `waitForSystemIdle` never
fails — it is a total function returning an elapsed duration whether idle
was reached or the timeout expired — and that duration is at most
`idleTimeout * 1000` milliseconds plus one 3000 ms poll interval. -/
theorem waitForSystemIdle_bounded (idleThreshold : ℚ) (idleTimeout : ℕ) (load : ℕ → ℚ) :
    waitForSystemIdle idleThreshold idleTimeout load ≤ idleTimeout * 1000 + 3000 := by
  have h := idleLoop_elapsed_lt idleThreshold (idleTimeout * 1000) load
    (idleTimeout * 1000 / 3000 + 1) 0 0 (by omega)
  exact le_of_lt (by simpa [waitForSystemIdle, waitForSystemIdleRun] using h)

/-- Claim C7: `waitForSystemIdle` never declares the system idle during
the 10-second grace period after its start: whenever the loop exits with
the idle flag set — even if every sampled load was already below the
threshold — the elapsed time exceeds 10 seconds (indeed it is at least
10500 ms, the first elapsed value whose rounded second count exceeds 10);
otherwise the loop sleeps the fixed 3-second interval and samples again. -/
theorem waitForSystemIdle_grace_period (idleThreshold : ℚ) (idleTimeout : ℕ)
    (load : ℕ → ℚ)
    (h : (waitForSystemIdleRun idleThreshold idleTimeout load).2 = true) :
    10000 < (waitForSystemIdleRun idleThreshold idleTimeout load).1 := by
  have h2 := idleLoop_idle_elapsed_ge idleThreshold (idleTimeout * 1000) load
    (idleTimeout * 1000 / 3000 + 1) 0 0 (by simpa [waitForSystemIdleRun] using h)
  have : 10500 ≤ (waitForSystemIdleRun idleThreshold idleTimeout load).1 := by
    simpa [waitForSystemIdleRun] using h2
  omega

theorem waitForSystemIdle_grace_period_witness :
    (waitForSystemIdleRun 1 20 (fun _ => 0)).2 = true ∧
      10000 < (waitForSystemIdleRun 1 20 (fun _ => 0)).1 :=
  ⟨by decide, waitForSystemIdle_grace_period 1 20 (fun _ => 0) (by decide)⟩

/-- Claim C10: the Time to Idle column prints the sentinel for an
`undefined` `timeToIdleMs` and also for a measured value of exactly 0,
because the check is a JS truthiness test; a genuine 0 ms measurement is
shown as unavailable rather than as "0.0", while a nonzero value such as
12000 ms prints as its second count. -/
theorem timeToIdleCell_sentinel :
    (∀ t : Option ℚ, (t = none ∨ t = some 0) → timeToIdleCell t = "N/A") ∧
    timeToIdleCell (some 0) ≠ "0.0" ∧
    timeToIdleCell (some 12000) = "12.0" := by
  have h120 : Rat.floor ((12000 : ℚ) / 1000 * 10 + 1 / 2) = 120 := by
    norm_num [Rat.floor]
  refine ⟨?_, by simp [timeToIdleCell, jsTruthyNum], ?_⟩
  · rintro t (rfl | rfl) <;> simp [timeToIdleCell, jsTruthyNum]
  · simp only [timeToIdleCell, jsTruthyNum, toFixed1, h120]
    norm_num
    decide

theorem timeToIdleCell_sentinel_witness : timeToIdleCell (some 0) = "N/A" :=
  timeToIdleCell_sentinel.1 (some 0) (Or.inr rfl)

theorem find?_append_first {α} (p : α → Bool) :
    ∀ (l1 : List α) (a : α) (l2 : List α), (∀ x ∈ l1, p x = false) → p a = true →
      List.find? p (l1 ++ a :: l2) = some a := by
  intro l1
  induction l1 with
  | nil => intro a l2 _ ha; simp [List.find?_cons, ha]
  | cons x xs ih =>
    intro a l2 hfalse ha
    have hx : p x = false := hfalse x (by simp)
    simp only [List.cons_append, List.find?_cons, hx]
    exact ih a l2 (fun y hy => hfalse y (by simp [hy])) ha

/-- Concrete catalog entries used to instantiate the resolver theorems. -/
def rt164 : Runtime :=
  { buildversion := "20E247", availability := "(available)", name := "iOS 16.4"
    identifier := "com.apple.CoreSimulator.SimRuntime.iOS-16-4"
    version := "16.4", isAvailable := true }

def rt170 : Runtime :=
  { buildversion := "21A328", availability := "(available)", name := "iOS 17.0"
    identifier := "com.apple.CoreSimulator.SimRuntime.iOS-17-0"
    version := "17.0", isAvailable := true }

def rt172 : Runtime :=
  { buildversion := "21C62", availability := "(available)", name := "iOS 17.2"
    identifier := "com.apple.CoreSimulator.SimRuntime.iOS-17-2"
    version := "17.2", isAvailable := true }

/-- Claim C4: for a version spec of exactly two characters containing no
dot, `getDeviceId`'s runtime matching accepts every runtime whose version
string starts with the spec, and the runtime `find` returns the first
runtime in catalog order that satisfies any matching rule. -/
theorem getDeviceId_bare_major_matching (v : String)
    (hlen : v.length = 2) (hdot : strContains v "." = false) :
    (∀ r : Runtime, strStartsWith r.version v = true → runtimeMatches v r = true) ∧
    (∀ (rs1 rs2 : List Runtime) (r : Runtime),
      (∀ r' ∈ rs1, runtimeMatches v r' = false) → runtimeMatches v r = true →
      List.find? (runtimeMatches v) (rs1 ++ r :: rs2) = some r) := by
  constructor
  · intro r hpre
    simp [runtimeMatches, hlen, hdot, hpre]
  · intro rs1 rs2 r h1 h2
    exact find?_append_first _ rs1 r rs2 h1 h2

theorem getDeviceId_bare_major_matching_witness :
    List.find? (runtimeMatches "17") [rt164, rt170, rt172] = some rt170 :=
  (getDeviceId_bare_major_matching "17" (by decide) (by decide)).2
    [rt164] [rt172] rt170 (by decide) (by decide)

theorem findAvailableDevice_sound (dn : String) (devs : List Device) (d : Device)
    (h : findAvailableDevice dn devs = some d) :
    d.name = dn ∧ d.isAvailable = true ∧ d ∈ devs := by
  have hp := List.find?_some h
  have hm := List.mem_of_find?_eq_some h
  rw [Bool.and_eq_true] at hp
  exact ⟨by simpa using hp.1, hp.2, hm⟩

theorem searchGroups_sound (km : String → Bool) (dn : String) :
    ∀ (gs : List (String × List Device)) (d : Device),
      searchGroups km dn gs = some d →
      d.name = dn ∧ d.isAvailable = true ∧
        ∃ key devs, (key, devs) ∈ gs ∧ km key = true ∧ d ∈ devs := by
  intro gs
  induction gs with
  | nil => intro d h; simp [searchGroups] at h
  | cons g rest ih =>
    intro d h
    obtain ⟨key, devs⟩ := g
    by_cases hk : km key = true
    · simp only [searchGroups, hk, if_true] at h
      cases hf : findAvailableDevice dn devs with
      | some d' =>
        rw [hf] at h
        simp only [Option.some.injEq] at h
        subst h
        obtain ⟨h1, h2, h3⟩ := findAvailableDevice_sound dn devs d' hf
        exact ⟨h1, h2, key, devs, by simp, hk, h3⟩
      | none =>
        rw [hf] at h
        obtain ⟨h1, h2, key', devs', hmem, hkm, hd⟩ := ih d h
        exact ⟨h1, h2, key', devs', by simp [hmem], hkm, hd⟩
    · simp only [searchGroups, hk, if_false] at h
      obtain ⟨h1, h2, key', devs', hmem, hkm, hd⟩ := ih d h
      exact ⟨h1, h2, key', devs', by simp [hmem], hkm, hd⟩

theorem searchGroups_append_first (km : String → Bool) (dn : String) :
    ∀ (gs1 : List (String × List Device)) (key : String) (devs : List Device)
      (gs2 : List (String × List Device)) (d : Device),
      (∀ p ∈ gs1, km p.1 = true → findAvailableDevice dn p.2 = none) →
      km key = true → findAvailableDevice dn devs = some d →
      searchGroups km dn (gs1 ++ (key, devs) :: gs2) = some d := by
  intro gs1
  induction gs1 with
  | nil =>
    intro key devs gs2 d _ hk hf
    simp [searchGroups, hk, hf]
  | cons p rest ih =>
    intro key devs gs2 d hnone hk hf
    obtain ⟨k1, ds1⟩ := p
    by_cases h1 : km k1 = true
    · have hfn : findAvailableDevice dn ds1 = none := hnone (k1, ds1) (by simp) h1
      simp only [List.cons_append, searchGroups, h1, if_true, hfn]
      exact ih key devs gs2 d (fun q hq hq' => hnone q (by simp [hq]) hq') hk hf
    · simp only [List.cons_append, searchGroups, h1, if_false]
      exact ih key devs gs2 d (fun q hq hq' => hnone q (by simp [hq]) hq') hk hf

/-- Claim C5: after a runtime is selected, the device phase first searches
only groups whose key exactly equals the runtime's identifier or name for
an available device named `deviceName` and returns its identifier; only
when that pass finds nothing does it scan the groups whose key contains
the runtime's version or name as a substring (returning the first match,
with the same name-and-availability check); when both passes find nothing
it fails with the resolution error. -/
theorem getDeviceId_device_two_pass (rt : Runtime) (dn : String)
    (gs : List (String × List Device)) :
    (∀ d, searchExactGroups rt dn gs = some d →
      deviceLookup rt dn gs = .ok d.udid ∧ d.name = dn ∧ d.isAvailable = true ∧
      ∃ key devs, (key, devs) ∈ gs ∧ (key = rt.identifier ∨ key = rt.name) ∧ d ∈ devs) ∧
    (searchExactGroups rt dn gs = none →
      ∀ d, searchLooseGroups rt dn gs = some d →
        deviceLookup rt dn gs = .ok d.udid ∧ d.name = dn ∧ d.isAvailable = true ∧
        ∃ key devs, (key, devs) ∈ gs ∧
          (strContains key rt.version = true ∨ strContains key rt.name = true) ∧
          d ∈ devs) ∧
    (searchExactGroups rt dn gs = none →
      ∀ (gs1 : List (String × List Device)) (key : String) (devs : List Device)
        (gs2 : List (String × List Device)) (d : Device),
        gs = gs1 ++ (key, devs) :: gs2 →
        (∀ p ∈ gs1, (strContains p.1 rt.version || strContains p.1 rt.name) = true →
          findAvailableDevice dn p.2 = none) →
        (strContains key rt.version || strContains key rt.name) = true →
        findAvailableDevice dn devs = some d →
        deviceLookup rt dn gs = .ok d.udid) ∧
    (searchExactGroups rt dn gs = none → searchLooseGroups rt dn gs = none →
      deviceLookup rt dn gs = .error (.soft "no available device")) := by
  refine ⟨?_, ?_, ?_, ?_⟩
  · intro d h
    obtain ⟨h1, h2, key, devs, hmem, hkm, hd⟩ := searchGroups_sound _ dn gs d h
    refine ⟨by simp [deviceLookup, h], h1, h2, key, devs, hmem, ?_, hd⟩
    rcases Bool.or_eq_true _ _ |>.mp hkm with hk | hk
    · exact Or.inl (by simpa using hk)
    · exact Or.inr (by simpa using hk)
  · intro hnone d h
    obtain ⟨h1, h2, key, devs, hmem, hkm, hd⟩ := searchGroups_sound _ dn gs d h
    refine ⟨by simp [deviceLookup, hnone, h], h1, h2, key, devs, hmem, ?_, hd⟩
    exact Bool.or_eq_true _ _ |>.mp hkm
  · intro hnone gs1 key devs gs2 d hgs hfirst hkm hf
    have hloose : searchLooseGroups rt dn gs = some d := by
      rw [hgs]
      exact searchGroups_append_first _ dn gs1 key devs gs2 d hfirst hkm hf
    simp [deviceLookup, hnone, hloose]
  · intro h1 h2
    simp [deviceLookup, h1, h2]

/-- Concrete catalog used to instantiate the device-resolution theorems:
the spec's scenario of a runtime with version "16.4" and identifier
"com.x.16-4" whose device group holds an available "iPhone 11". -/
def rtX164 : Runtime :=
  { buildversion := "20E247", availability := "(available)", name := "iOS 16.4"
    identifier := "com.x.16-4", version := "16.4", isAvailable := true }

def devIPhone11 : Device :=
  { name := "iPhone 11", udid := "ABC", state := "Shutdown", isAvailable := true }

theorem getDeviceId_device_two_pass_witness :
    deviceLookup rtX164 "iPhone 11" [("com.x.16-4", [devIPhone11])] = .ok "ABC" :=
  ((getDeviceId_device_two_pass rtX164 "iPhone 11"
    [("com.x.16-4", [devIPhone11])]).1 devIPhone11 (by decide)).1

/-- Claim C8: within one process, calling `getDeviceId` twice with the
same (versionSpec, deviceName) pair from an initially empty cache gives
the same result; the second call issues no catalog fetches and leaves the
cache untouched, and the first call fetches each of the two catalogs at
most once (each cache field is assigned at most a single time and
thereafter only read). -/
theorem getDeviceId_idempotent_cached (w : SimctlWorld) (v dn : String) :
    let first := getDeviceId w v dn { cachedDevices := none, cachedRuntimes := none }
    let second := getDeviceId w v dn first.2.1
    second.1 = first.1 ∧ second.2.1 = first.2.1 ∧ second.2.2 = (0, 0) ∧
      first.2.2.1 ≤ 1 ∧ first.2.2.2 ≤ 1 := by
  dsimp only
  cases hf : (w.runtimesJson.filter fun r => strContains r.name "iOS").find?
      (runtimeMatches v) with
  | none => simp [getDeviceId, getAllRuntimes, getAllDevices, hf]
  | some rt => simp [getDeviceId, getAllRuntimes, getAllDevices, hf]

theorem runSpawnCommands_success (spawnRes : ℕ → CmdResult) :
    ∀ (cmds : List String) (i : ℕ),
      (∀ j < cmds.length, (spawnRes (i + j)).code = 0) →
      runSpawnCommands spawnRes cmds i =
        (.ok (((List.range cmds.length).map (fun j => (spawnRes (i + j)).durMs)).sum),
         cmds.map Op.spawn) := by
  intro cmds
  induction cmds with
  | nil => intro i _; simp [runSpawnCommands]
  | cons c cs ih =>
    intro i h
    have h0 : (spawnRes i).code = 0 := by simpa using h 0 (by simp)
    have hrec := ih (i + 1) (fun j hj => by
      have := h (j + 1) (by simpa using hj)
      simpa [Nat.add_assoc, Nat.add_comm 1 j] using this)
    have hfun : (fun j => (spawnRes (i + 1 + j)).durMs) =
        (fun j => (spawnRes (i + (j + 1))).durMs) := by
      funext j
      congr 2
      omega
    simp [runSpawnCommands, executeCommand, h0, hrec, hfun, List.range_succ_eq_map,
      List.map_map, Function.comp_def, Nat.succ_eq_add_one]

/-- Claim C9: for a non-empty post-boot command list, when every phase
succeeds the duration `measureBootTime` returns counts boot, every hook
command and the usability launch: the timer starts before the boot call
and stops after the launch, and the trace shows every hook executed
between them, inside the timed window — so hook latency flows into the
reported boot time (and hence into the combination's average, which
averages exactly these values). -/
theorem measureBootTime_includes_hooks (be : BootEnv) (deviceId : String)
    (cmds : List String) (hne : cmds ≠ [])
    (hboot : be.bootRes.code = 0)
    (hspawn : ∀ j < cmds.length, (be.spawnRes j).code = 0)
    (hlaunch : be.launchRes.code = 0) :
    measureBootTime be deviceId cmds =
      (.ok (be.bootRes.durMs +
          ((List.range cmds.length).map (fun j => (be.spawnRes j).durMs)).sum +
          be.launchRes.durMs),
        Op.boot deviceId ::
          (cmds.map Op.spawn ++ [Op.launch "com.apple.Preferences"])) := by
  have hs := runSpawnCommands_success be.spawnRes cmds 0 (by simpa using hspawn)
  simp [measureBootTime, hboot, hlaunch, hs]

theorem measureBootTime_includes_hooks_witness :
    measureBootTime
        { bootRes := ⟨0, 10000⟩, spawnRes := fun _ => ⟨0, 2000⟩, launchRes := ⟨0, 500⟩ }
        "UDID" ["launchctl bootout x"] =
      (.ok 12500,
        [Op.boot "UDID", Op.spawn "launchctl bootout x",
         Op.launch "com.apple.Preferences"]) := by
  have h := measureBootTime_includes_hooks
    { bootRes := ⟨0, 10000⟩, spawnRes := fun _ => ⟨0, 2000⟩, launchRes := ⟨0, 500⟩ }
    "UDID" ["launchctl bootout x"] (by simp) rfl (fun j _ => rfl) rfl
  rw [h]
  norm_num

/-- All five lifecycle operations of one repetition succeed. -/
def repSucceeds (re : RepEnv) (cmds : List String) : Prop :=
  re.eraseCode = 0 ∧ re.boot.bootRes.code = 0 ∧
  (∀ j < cmds.length, (re.boot.spawnRes j).code = 0) ∧
  re.boot.launchRes.code = 0 ∧ re.shutdownCode = 0

/-- The boot time a successful repetition measures: boot + hooks + launch. -/
def repBootDurMs (re : RepEnv) (cmds : List String) : ℚ :=
  re.boot.bootRes.durMs +
    ((List.range cmds.length).map (fun j => (re.boot.spawnRes j).durMs)).sum +
    re.boot.launchRes.durMs

/-- The idle-wait duration of one repetition, as a rational. -/
def repIdleDurMs (re : RepEnv) (req : BenchmarkRequest) : ℚ :=
  (waitForSystemIdle req.idleThreshold req.idleTimeout re.load : ℕ)

theorem measureBootTime_success (be : BootEnv) (deviceId : String)
    (cmds : List String) (hboot : be.bootRes.code = 0)
    (hspawn : ∀ j < cmds.length, (be.spawnRes j).code = 0)
    (hlaunch : be.launchRes.code = 0) :
    measureBootTime be deviceId cmds =
      (.ok (be.bootRes.durMs +
          ((List.range cmds.length).map (fun j => (be.spawnRes j).durMs)).sum +
          be.launchRes.durMs),
        Op.boot deviceId ::
          (cmds.map Op.spawn ++ [Op.launch "com.apple.Preferences"])) := by
  have hs := runSpawnCommands_success be.spawnRes cmds 0 (by simpa using hspawn)
  simp [measureBootTime, hboot, hlaunch, hs]

theorem runOneRep_success (re : RepEnv) (req : BenchmarkRequest) (deviceId : String)
    (h : repSucceeds re req.spawnCommands) :
    runOneRep re req deviceId =
      (.ok (repBootDurMs re req.spawnCommands,
            repBootDurMs re req.spawnCommands + repIdleDurMs re req),
       Op.erase deviceId ::
         (Op.boot deviceId ::
           (req.spawnCommands.map Op.spawn ++ [Op.launch "com.apple.Preferences"])) ++
         [Op.shutdown deviceId]) := by
  obtain ⟨h1, h2, h3, h4, h5⟩ := h
  have hb := measureBootTime_success re.boot deviceId req.spawnCommands h2 h3 h4
  simp [runOneRep, eraseDevice, shutdownDevice, h1, h5, hb, repBootDurMs, repIdleDurMs]

theorem runReps_success (ce : ComboEnv) (req : BenchmarkRequest) (deviceId : String) :
    ∀ (n i : ℕ) (totB totI : ℚ),
      (∀ j < n, repSucceeds (ce.reps (i + j)) req.spawnCommands) →
      (runReps ce req deviceId n i totB totI).1 =
        .ok (totB + ((List.range n).map
               (fun j => repBootDurMs (ce.reps (i + j)) req.spawnCommands)).sum,
             totI + ((List.range n).map
               (fun j => repBootDurMs (ce.reps (i + j)) req.spawnCommands +
                         repIdleDurMs (ce.reps (i + j)) req)).sum) := by
  intro n
  induction n with
  | zero => intro i totB totI _; simp [runReps]
  | succ m ih =>
    intro i totB totI h
    have h0 : repSucceeds (ce.reps i) req.spawnCommands := by
      simpa using h 0 (by simp)
    have hrec := ih (i + 1) (totB + repBootDurMs (ce.reps i) req.spawnCommands)
      (totI + (repBootDurMs (ce.reps i) req.spawnCommands + repIdleDurMs (ce.reps i) req))
      (fun j hj => by
        have := h (j + 1) (by simpa using hj)
        simpa [Nat.add_assoc, Nat.add_comm 1 j] using this)
    have hfunB : (fun j => repBootDurMs (ce.reps (i + 1 + j)) req.spawnCommands) =
        (fun j => repBootDurMs (ce.reps (i + (j + 1))) req.spawnCommands) := by
      funext j
      have hj : i + 1 + j = i + (j + 1) := by omega
      rw [hj]
    have hfunT : (fun j => repBootDurMs (ce.reps (i + 1 + j)) req.spawnCommands +
          repIdleDurMs (ce.reps (i + 1 + j)) req) =
        (fun j => repBootDurMs (ce.reps (i + (j + 1))) req.spawnCommands +
          repIdleDurMs (ce.reps (i + (j + 1))) req) := by
      funext j
      have hj : i + 1 + j = i + (j + 1) := by omega
      rw [hj]
    rw [runReps, runOneRep_success (ce.reps i) req deviceId h0]
    dsimp only
    cases hrr : runReps ce req deviceId m (i + 1)
      (totB + repBootDurMs (ce.reps i) req.spawnCommands)
      (totI + (repBootDurMs (ce.reps i) req.spawnCommands + repIdleDurMs (ce.reps i) req)) with
    | mk res tr =>
      rw [hrr] at hrec
      dsimp only at hrec
      rw [hrec]
      simp [List.range_succ_eq_map, List.map_map, Function.comp_def, hfunB, hfunT,
        Nat.succ_eq_add_one, add_assoc]
      constructor <;> simp [Nat.add_comm 1]

/-- Claim C3: when all `runCount` repetitions of a combination complete
without error, `runBootBenchmark` returns a `BenchmarkResult` whose
`runs` equals `runCount`, whose `bootTimeMs` is the arithmetic mean of
the per-repetition boot times, and whose `timeToIdleMs` is the
arithmetic mean of the per-repetition sums of boot time and idle-wait
duration. -/
theorem runBootBenchmark_success_averages (ce : ComboEnv) (req : BenchmarkRequest)
    (deviceId : String) (hres : ce.resolveRes = .ok deviceId)
    (hreps : ∀ i < req.runCount, repSucceeds (ce.reps i) req.spawnCommands) :
    (runBootBenchmark ce req).1 = .ok (some
      { iosVersion := req.iosVersion
        deviceName := req.deviceName
        bootTimeMs := (((List.range req.runCount).map
          (fun i => repBootDurMs (ce.reps i) req.spawnCommands)).sum) / (req.runCount : ℚ)
        runs := req.runCount
        timeToIdleMs := some ((((List.range req.runCount).map
          (fun i => repBootDurMs (ce.reps i) req.spawnCommands +
                    repIdleDurMs (ce.reps i) req)).sum) / (req.runCount : ℚ)) }) := by
  have h := runReps_success ce req deviceId req.runCount 0 0 0
    (fun j hj => by simpa using hreps j hj)
  cases hrr : runReps ce req deviceId req.runCount 0 0 0 with
  | mk res tr =>
    rw [hrr] at h
    dsimp only at h
    simp only [zero_add] at h
    simp [runBootBenchmark, runBootBenchmarkBody, hres, hrr, h]

/-- Concrete repetition environments realizing the spec's averaging
example: three successful repetitions whose boot times are 10000, 12000
and 14000 ms, with no hooks and an immediate idle timeout. -/
def avgReps : ℕ → RepEnv := fun i =>
  { eraseCode := 0
    boot := { bootRes := ⟨0, if i = 0 then 10000 else if i = 1 then 12000 else 14000⟩
              spawnRes := fun _ => ⟨0, 0⟩
              launchRes := ⟨0, 0⟩ }
    load := fun _ => 0
    shutdownCode := 0 }

def avgCombo : ComboEnv :=
  { resolveRes := .ok "UDID", reps := avgReps, recoveryShutdownCode := 0 }

def avgReq : BenchmarkRequest :=
  { iosVersion := "17.0", deviceName := "iPhone 15", runCount := 3
    idleThreshold := 2, spawnCommands := [], idleTimeout := 0 }

theorem runBootBenchmark_success_averages_witness :
    (runBootBenchmark avgCombo avgReq).1 = .ok (some
      { iosVersion := "17.0", deviceName := "iPhone 15", bootTimeMs := 12000
        runs := 3, timeToIdleMs := some 12000 }) := by
  have h := runBootBenchmark_success_averages avgCombo avgReq "UDID" rfl
    (fun i _ => ⟨rfl, rfl, fun j _ => rfl, rfl, rfl⟩)
  rw [h]
  simp only [avgReq, avgCombo, avgReps, repBootDurMs, repIdleDurMs,
    waitForSystemIdle, waitForSystemIdleRun, idleLoop]
  norm_num [List.range_succ]

/-- Claim C1: when any lifecycle operation of a combination (erase, boot,
post-boot hook, usability launch, or the final clean shutdown itself)
fails with a `HardSimulatorError` — in the model, exactly the case where
the `try` body ends in a hard error — `runBootBenchmark` returns `null`
for that combination and performs exactly one additional best-effort
`shutdownDevice("booted")` recovery attempt; the recovery shutdown's own
outcome (any `recoveryShutdownCode`) is never escalated, and the
multi-combination loop still executes every subsequent combination. -/
theorem runBootBenchmark_hard_error_recovery (ce : ComboEnv) (req : BenchmarkRequest)
    (m : String) (tr : List Op) (rest : List (ComboEnv × BenchmarkRequest))
    (h : runBootBenchmarkBody ce req = (.error (.hard m), tr)) :
    runBootBenchmark ce req = (.ok none, tr ++ [Op.shutdown "booted"]) ∧
    benchLoop ((ce, req) :: rest) =
      ((benchLoop rest).1, (benchLoop rest).2.1,
        (tr ++ [Op.shutdown "booted"]) ++ (benchLoop rest).2.2) := by
  have h1 : runBootBenchmark ce req = (.ok none, tr ++ [Op.shutdown "booted"]) := by
    simp [runBootBenchmark, h, shutdownDevice]
  refine ⟨h1, ?_⟩
  rw [benchLoop, h1]

/-- Claim C2: an error that is neither a `SoftSimulatorError` nor a
`HardSimulatorError` is re-thrown by `runBootBenchmark`, and the
multi-combination loop stops there: no remaining combination is
attempted and no result is collected past that point; moreover this is
the only error class that ever escapes `runBootBenchmark` (soft and hard
errors are contained as a skipped, `null` combination). -/
theorem runBootBenchmark_unexpected_aborts :
    (∀ (ce : ComboEnv) (req : BenchmarkRequest) (m : String) (tr : List Op)
       (rest : List (ComboEnv × BenchmarkRequest)),
       runBootBenchmarkBody ce req = (.error (.other m), tr) →
       runBootBenchmark ce req = (.error (.other m), tr) ∧
       benchLoop ((ce, req) :: rest) = ([], some (.other m), tr)) ∧
    (∀ (ce : ComboEnv) (req : BenchmarkRequest) (e : SimError),
       (runBootBenchmark ce req).1 = .error e → ∃ m, e = .other m) := by
  constructor
  · intro ce req m tr rest h
    have h1 : runBootBenchmark ce req = (.error (.other m), tr) := by
      simp [runBootBenchmark, h]
    refine ⟨h1, ?_⟩
    rw [benchLoop, h1]
  · intro ce req e h
    cases hb : runBootBenchmarkBody ce req with
    | mk res tr =>
      cases res with
      | ok r => simp [runBootBenchmark, hb] at h
      | error err =>
        cases err with
        | soft m => simp [runBootBenchmark, hb] at h
        | hard m => simp [runBootBenchmark, hb, shutdownDevice] at h
        | other m =>
          simp only [runBootBenchmark, hb] at h
          exact ⟨m, by simpa using h.symm⟩

/-- A combination whose single repetition succeeds through boot and idle
but whose final clean shutdown fails (exit code 1), with a recovery
shutdown that also fails: the hard-error scenario of the spec. -/
def badReps : ℕ → RepEnv := fun _ =>
  { eraseCode := 0
    boot := { bootRes := ⟨0, 1000⟩, spawnRes := fun _ => ⟨0, 0⟩, launchRes := ⟨0, 0⟩ }
    load := fun _ => 0
    shutdownCode := 1 }

def badCombo : ComboEnv :=
  { resolveRes := .ok "U1", reps := badReps, recoveryShutdownCode := 1 }

def badReq : BenchmarkRequest :=
  { iosVersion := "17.5", deviceName := "iPhone 14", runCount := 1
    idleThreshold := 2, spawnCommands := [], idleTimeout := 0 }

/-- A combination whose single repetition fully succeeds. -/
def okReps : ℕ → RepEnv := fun _ =>
  { eraseCode := 0
    boot := { bootRes := ⟨0, 0⟩, spawnRes := fun _ => ⟨0, 0⟩, launchRes := ⟨0, 0⟩ }
    load := fun _ => 0
    shutdownCode := 0 }

def okCombo : ComboEnv :=
  { resolveRes := .ok "U2", reps := okReps, recoveryShutdownCode := 0 }

def okReq : BenchmarkRequest :=
  { iosVersion := "18.0", deviceName := "iPhone 15", runCount := 1
    idleThreshold := 2, spawnCommands := [], idleTimeout := 0 }

theorem runBootBenchmark_hard_error_recovery_witness :
    runBootBenchmark badCombo badReq =
      (.ok none, [Op.erase "U1", Op.boot "U1", Op.launch "com.apple.Preferences",
        Op.shutdown "U1", Op.shutdown "booted"]) ∧
    benchLoop [(badCombo, badReq), (okCombo, okReq)] =
      ([{ iosVersion := "18.0", deviceName := "iPhone 15", bootTimeMs := 0,
          runs := 1, timeToIdleMs := some 0 }], none,
       [Op.erase "U1", Op.boot "U1", Op.launch "com.apple.Preferences",
        Op.shutdown "U1", Op.shutdown "booted", Op.erase "U2", Op.boot "U2",
        Op.launch "com.apple.Preferences", Op.shutdown "U2"]) := by
  have hbody : runBootBenchmarkBody badCombo badReq =
      (.error (.hard "shutdown failed"),
       [Op.erase "U1", Op.boot "U1", Op.launch "com.apple.Preferences",
        Op.shutdown "U1"]) := by
    simp [runBootBenchmarkBody, runReps, runOneRep, eraseDevice, measureBootTime,
      runSpawnCommands, executeCommand, shutdownDevice, badCombo, badReq, badReps]
  have h := runBootBenchmark_hard_error_recovery badCombo badReq "shutdown failed" _
    [(okCombo, okReq)] hbody
  have hok : runBootBenchmark okCombo okReq =
      (.ok (some { iosVersion := "18.0", deviceName := "iPhone 15", bootTimeMs := 0,
                   runs := 1, timeToIdleMs := some 0 }),
       [Op.erase "U2", Op.boot "U2", Op.launch "com.apple.Preferences",
        Op.shutdown "U2"]) := by
    simp [runBootBenchmark, runBootBenchmarkBody, runReps, runOneRep, eraseDevice,
      measureBootTime, runSpawnCommands, executeCommand, shutdownDevice,
      waitForSystemIdle, waitForSystemIdleRun, idleLoop, okCombo, okReq, okReps]
  have hrest : benchLoop [(okCombo, okReq)] =
      ([{ iosVersion := "18.0", deviceName := "iPhone 15", bootTimeMs := 0,
          runs := 1, timeToIdleMs := some 0 }], none,
       [Op.erase "U2", Op.boot "U2", Op.launch "com.apple.Preferences",
        Op.shutdown "U2"]) := by
    rw [benchLoop, hok, benchLoop]
    simp
  refine ⟨by simpa using h.1, ?_⟩
  rw [h.2, hrest]
  simp

/-- A combination whose device resolution throws an unexpected
(non-`SimulatorError`) failure. -/
def boomCombo : ComboEnv :=
  { resolveRes := .error (.other "boom"), reps := okReps, recoveryShutdownCode := 0 }

theorem runBootBenchmark_unexpected_aborts_witness :
    runBootBenchmark boomCombo okReq = (.error (.other "boom"), []) ∧
    benchLoop [(boomCombo, okReq), (okCombo, okReq)] =
      ([], some (.other "boom"), []) := by
  have hbody : runBootBenchmarkBody boomCombo okReq = (.error (.other "boom"), []) := by
    simp [runBootBenchmarkBody, boomCombo]
  exact runBootBenchmark_unexpected_aborts.1 boomCombo okReq "boom" []
    [(okCombo, okReq)] hbody
